import Mathlib

/-!
Shallow embedding of the payment-gated job lifecycle engine of
`src/main.py` (FRED economic-data agent with Masumi payment integration).

The two process-wide dictionaries `jobs` and `payment_instances` are
modelled as an `AppState`.  External collaborators (the Masumi payment
provider and the CrewAI task executor) are modelled by environment
records whose fields give the outcome of each external call; the
endpoint functions additionally report whether the payment provider was
contacted, so that "no external call was made" is statable.
-/

/-- One entry of the `jobs` dictionary, as stored by `start_job`
(`src/main.py` lines 130-137).  The `error` key is only added by the
failure branch of `handle_payment_status`; key absence is modelled as
`none`. -/
structure JobRecord where
  status : String
  payment_status : Option String
  blockchain_identifier : String
  input_data : List (String × String)
  result : Option String
  error : Option String
  identifier_from_purchaser : String
deriving DecidableEq

/-- The in-memory tables of `src/main.py` lines 37-38: the `jobs`
dictionary and the set of job ids with an entry in `payment_instances`
(only membership of that dictionary is ever branched on; the stored
`Payment` object's behaviour is environment-driven). -/
structure AppState where
  jobs : String → Option JobRecord
  payment_instances : String → Bool

/-- `jobs[job_id] = record` (Python dict assignment). -/
def setJob (s : AppState) (jid : String) (r : JobRecord) : AppState :=
  { s with jobs := fun k => if k = jid then some r else s.jobs k }

/-- In-place mutation of an existing record, as in
`jobs[job_id]["status"] = ...`; a missing key would raise in Python and
is modelled as leaving the state unchanged. -/
def updateJob (s : AppState) (jid : String) (f : JobRecord → JobRecord) : AppState :=
  match s.jobs jid with
  | some r => setJob s jid (f r)
  | none => s

/-- Add (`true`) or delete (`false`) the `payment_instances[job_id]` entry. -/
def setMonitor (s : AppState) (jid : String) (b : Bool) : AppState :=
  { s with payment_instances := fun k => if k = jid then b else s.payment_instances k }

/-- Outcomes of the two external calls performed by
`handle_payment_status`: `execute_crew_task` (the task executor) and
`Payment.complete_payment` (provider fulfillment).  An `error` value
means the call raised, carrying `str(e)`. -/
structure Env where
  executor : Except String String
  complete_payment : Except String Unit

/-- Python `str(KeyError(job_id))`, the message produced when
`payment_instances[job_id]` is missing at the fulfillment step. -/
def keyErrMsg (jid : String) : String := "'" ++ jid ++ "'"

/-- The `except` branch of `handle_payment_status` (`src/main.py` lines
216-224): set `status` to `"failed"`, record `str(e)` under `error`,
then stop monitoring and delete the `payment_instances` entry if present. -/
def failCleanup (s : AppState) (jid : String) (msg : String) : AppState :=
  setMonitor (updateJob s jid (fun r => { r with status := "failed", error := some msg })) jid false

/-- `handle_payment_status` (`src/main.py` lines 184-224).  Returns the
new state together with the number of times the task executor was
invoked during this call (0 or 1).  The body: set status `"running"`,
run the executor, call `payment_instances[job_id].complete_payment`
(a `KeyError` if the entry is gone), on success store the result and
mark the job `"completed"`, and in every branch — success or exception —
stop monitoring and delete the `payment_instances` entry. -/
def handle_payment_status (env : Env) (jid : String) (s : AppState) : AppState × Nat :=
  match s.jobs jid with
  | none => (s, 0)
  | some _ =>
    let s1 := updateJob s jid (fun r => { r with status := "running" })
    match env.executor with
    | .error msg => (failCleanup s1 jid msg, 1)
    | .ok res =>
      if s1.payment_instances jid then
        match env.complete_payment with
        | .error msg => (failCleanup s1 jid msg, 1)
        | .ok _ =>
          let s2 := updateJob s1 jid (fun r =>
            { r with status := "completed", payment_status := some "completed",
                     result := some res })
          (setMonitor s2 jid false, 1)
      else
        (failCleanup s1 jid (keyErrMsg jid), 1)

/-- The callback registered with `payment.start_status_monitoring`
(`src/main.py` lines 139-140): it forwards every provider signal
directly to `handle_payment_status`, with no guard of its own. -/
def payment_callback (env : Env) (jid : String) (s : AppState) : AppState × Nat :=
  handle_payment_status env jid s

/-- Python `str.strip()`: leading and trailing whitespace removed. -/
def pyStrip (s : String) : String :=
  String.mk (((s.data.dropWhile Char.isWhitespace).reverse.dropWhile Char.isWhitespace).reverse)

/-- The `validate_input_data` field validator of `StartJobRequest`
(`src/main.py` lines 55-62): the dict must be non-empty and contain a
`"text"` key whose value is non-empty and at least 5 characters long
after stripping. -/
def validate_input_data (v : List (String × String)) : Except String Unit :=
  if v = [] then .error "input_data must contain a text field with the economic query"
  else match v.lookup "text" with
    | none => .error "input_data must contain a text field with the economic query"
    | some t =>
      if t = "" then .error "text field must contain at least 5 characters"
      else if (pyStrip t).length < 5 then .error "text field must contain at least 5 characters"
      else .ok ()

/-- A `/start_job` request body (`StartJobRequest`, `src/main.py` lines
51-62): `identifier_from_purchaser` and the `input_data` dict. -/
structure StartJobRequest where
  identifier_from_purchaser : String
  input_data : List (String × String)

/-- Full pydantic validation of a `StartJobRequest`:
`identifier_from_purchaser` has `min_length=1`, and `input_data` passes
`validate_input_data`.  FastAPI rejects the request before the endpoint
body runs when this fails. -/
def validate_request (req : StartJobRequest) : Except String Unit :=
  if req.identifier_from_purchaser = "" then
    .error "identifier_from_purchaser must have at least 1 character"
  else validate_input_data req.input_data

/-- The `data` object of a successful `payment.create_payment_request()`
response (`src/main.py` lines 124-127 and 148-161). -/
structure PaymentReqData where
  blockchainIdentifier : String
  payByTime : String
  submitResultTime : String
  unlockTime : String
  externalDisputeUnlockTime : String
deriving DecidableEq

/-- Outcomes of the two external calls performed by `start_job`:
`payment.create_payment_request()` and
`payment.start_status_monitoring(...)`. -/
structure StartEnv where
  create_payment_request : Except String PaymentReqData
  start_status_monitoring : Except String Unit

/-- Error kinds surfaced to HTTP callers: pydantic validation failure
(422) or a `ValueError` caught in the body (400), `KeyError` (400),
`HTTPException(404)`, and the catch-all `HTTPException(500)`. -/
inductive ApiError
  | validationError
  | badRequest
  | notFound
  | internalError
deriving DecidableEq

/-- The success body returned by `/start_job` (`src/main.py` lines
148-161), provider timing metadata passed through verbatim. -/
structure StartJobResponse where
  status : String
  job_id : String
  blockchainIdentifier : String
  payByTime : String
  submitResultTime : String
  unlockTime : String
  externalDisputeUnlockTime : String
  identifierFromPurchaser : String
deriving DecidableEq

/-- `start_job` (`src/main.py` lines 91-179), with the fresh
`uuid.uuid4()` passed in as `job_id`.  Returns the new state, the HTTP
outcome, and whether the payment provider was contacted.  Order of
effects as in the source: validate, create the payment request (on
failure: error surfaced, nothing stored), store the job record with
`status = "awaiting_payment"`, store the payment instance, then start
status monitoring (on failure: HTTP 500, but the job and the payment
instance stay stored). -/
def start_job (env : StartEnv) (req : StartJobRequest) (job_id : String) (s : AppState) :
    AppState × Except ApiError StartJobResponse × Bool :=
  match validate_request req with
  | .error _ => (s, .error .validationError, false)
  | .ok _ =>
    match env.create_payment_request with
    | .error _ => (s, .error .internalError, true)
    | .ok pr =>
      let newJob : JobRecord :=
        { status := "awaiting_payment", payment_status := some "pending",
          blockchain_identifier := pr.blockchainIdentifier, input_data := req.input_data,
          result := none, error := none,
          identifier_from_purchaser := req.identifier_from_purchaser }
      let s1 := setJob s job_id newJob
      let s2 := setMonitor s1 job_id true
      match env.start_status_monitoring with
      | .error _ => (s2, .error .internalError, true)
      | .ok _ =>
        (s2, .ok { status := "success", job_id := job_id,
                   blockchainIdentifier := pr.blockchainIdentifier,
                   payByTime := pr.payByTime, submitResultTime := pr.submitResultTime,
                   unlockTime := pr.unlockTime,
                   externalDisputeUnlockTime := pr.externalDisputeUnlockTime,
                   identifierFromPurchaser := req.identifier_from_purchaser }, true)

/-- A JSON field value of the `/status` response: a string or `null`. -/
inductive JVal
  | s (v : String)
  | null
deriving DecidableEq

/-- Python `None`-or-string to a JSON value. -/
def optJV : Option String → JVal
  | some v => .s v
  | none => .null

/-- Outcome of `payment_instances[job_id].check_payment_status()`: a
response whose `data.status` field is extracted with `.get` (so possibly
`None`), a raised `ValueError`, or any other raised exception. -/
inductive ProviderCheck
  | ok (payment_status : Option String)
  | valueError (msg : String)
  | otherError (msg : String)

/-- The response dict literal of `get_status` (`src/main.py` lines
259-264): exactly the keys `job_id`, `status`, `payment_status`,
`result`. -/
def statusResponse (jid : String) (job : JobRecord) : List (String × JVal) :=
  [("job_id", .s jid), ("status", .s job.status),
   ("payment_status", optJV job.payment_status), ("result", optJV job.result)]

/-- `get_status` (`src/main.py` lines 229-264).  Returns the new state,
the HTTP outcome, and whether the provider was contacted.  Unknown id:
404 before anything else.  If a `payment_instances` entry exists the
live payment status is fetched and written into the record
(`ValueError` degrades it to `"unknown"`, any other exception to
`"error"`); otherwise no provider call is made.  The merged view is then
returned. -/
def get_status (env : ProviderCheck) (jid : String) (s : AppState) :
    AppState × Except ApiError (List (String × JVal)) × Bool :=
  match s.jobs jid with
  | none => (s, .error .notFound, false)
  | some job =>
    if s.payment_instances jid then
      let pst : Option String :=
        match env with
        | .ok p => p
        | .valueError _ => some "unknown"
        | .otherError _ => some "error"
      let job1 := { job with payment_status := pst }
      (setJob s jid job1, .ok (statusResponse jid job1), true)
    else
      (s, .ok (statusResponse jid job), false)

/-! ## Basic state lemmas -/

@[simp] theorem setJob_monitors (s : AppState) (jid : String) (r : JobRecord) :
    (setJob s jid r).payment_instances = s.payment_instances := rfl

@[simp] theorem updateJob_monitors (s : AppState) (jid : String) (f : JobRecord → JobRecord) :
    (updateJob s jid f).payment_instances = s.payment_instances := by
  unfold updateJob
  cases s.jobs jid <;> rfl

@[simp] theorem setMonitor_jobs (s : AppState) (jid : String) (b : Bool) :
    (setMonitor s jid b).jobs = s.jobs := rfl

@[simp] theorem setMonitor_self (s : AppState) (jid : String) (b : Bool) :
    (setMonitor s jid b).payment_instances jid = b := by
  simp [setMonitor]

@[simp] theorem setJob_jobs_self (s : AppState) (jid : String) (r : JobRecord) :
    (setJob s jid r).jobs jid = some r := by
  simp [setJob]

theorem setJob_jobs_other (s : AppState) (jid k : String) (r : JobRecord) (h : k ≠ jid) :
    (setJob s jid r).jobs k = s.jobs k := by
  simp [setJob, h]

theorem updateJob_jobs_self (s : AppState) (jid : String) (f : JobRecord → JobRecord)
    (r : JobRecord) (h : s.jobs jid = some r) :
    (updateJob s jid f).jobs jid = some (f r) := by
  unfold updateJob
  rw [h]
  simp

theorem updateJob_jobs_other (s : AppState) (jid k : String) (f : JobRecord → JobRecord)
    (h : k ≠ jid) : (updateJob s jid f).jobs k = s.jobs k := by
  unfold updateJob
  cases hj : s.jobs jid
  · rfl
  · exact setJob_jobs_other _ _ _ _ h

theorem failCleanup_jobs_self (s : AppState) (jid : String) (msg : String)
    (r : JobRecord) (h : s.jobs jid = some r) :
    (failCleanup s jid msg).jobs jid = some { r with status := "failed", error := some msg } := by
  unfold failCleanup
  rw [setMonitor_jobs]
  exact updateJob_jobs_self _ _ _ _ h

@[simp] theorem failCleanup_monitor_self (s : AppState) (jid : String) (msg : String) :
    (failCleanup s jid msg).payment_instances jid = false := by
  unfold failCleanup
  simp


/-! ## Concrete fixtures used by witnesses -/

/-- A freshly created job, as stored by `start_job`. -/
def jrecAwait : JobRecord :=
  { status := "awaiting_payment", payment_status := some "pending",
    blockchain_identifier := "pay_001", input_data := [("text", "What is GDP?")],
    result := none, error := none, identifier_from_purchaser := "buyer_1" }

/-- State holding the single job `"job-1"` awaiting payment, with its
monitor active. -/
def stAwait : AppState :=
  { jobs := fun k => if k = "job-1" then some jrecAwait else none,
    payment_instances := fun k => k == "job-1" }

/-- Environment where the executor and the fulfillment call both succeed. -/
def envOk : Env :=
  { executor := .ok "GDP grew 2 percent", complete_payment := .ok () }

/-- C2: every invocation of the confirmation handler on an existing job —
executor success, executor failure, fulfillment failure, or the handler
raising a `KeyError` itself — leaves the job without an entry in the
active monitor set `payment_instances`. -/
theorem handler_always_removes_monitor (env : Env) (jid : String) (s : AppState)
    (r : JobRecord) (h : s.jobs jid = some r) :
    ((handle_payment_status env jid s).1).payment_instances jid = false := by
  rcases env with ⟨ex, cp⟩
  unfold handle_payment_status
  rw [h]
  rcases ex with msg | res
  · simp
  · dsimp only
    rw [updateJob_monitors]
    cases hm : s.payment_instances jid
    · simp [hm]
    · rcases cp with m | u <;> simp [hm]

/-- Witness for C2 at a concrete state: job `"job-1"` exists, and after
the handler runs its monitor entry is gone. -/
theorem handler_always_removes_monitor_witness :
    stAwait.jobs "job-1" = some jrecAwait ∧
    ((handle_payment_status envOk "job-1" stAwait).1).payment_instances "job-1" = false :=
  ⟨rfl, handler_always_removes_monitor envOk "job-1" stAwait jrecAwait rfl⟩

/-- The record after a successful first run of the handler on `jrecAwait`. -/
def jrecDone : JobRecord :=
  { jrecAwait with status := "completed", payment_status := some "completed",
                   result := some "GDP grew 2 percent" }

/-- State after the first confirmation was handled successfully: the job
is completed and its monitor entry is gone. -/
def stDone : AppState :=
  { jobs := fun k => if k = "job-1" then some jrecDone else none,
    payment_instances := fun _ => false }

/-- C1, counterexample: the payment provider signals confirmation twice
for job `"job-1"`.  The callback registered in `start_job` performs no
active-monitor check, so both signals reach `handle_payment_status` and
the Task Executor is invoked twice — not once as claimed — and the
second run then hits a `KeyError` at the fulfillment step and overwrites
the completed job as failed. -/
theorem duplicate_signal_invokes_executor_twice :
    (payment_callback envOk "job-1" stAwait).2 +
      (payment_callback envOk "job-1" (payment_callback envOk "job-1" stAwait).1).2 = 2 ∧
    ((payment_callback envOk "job-1" (payment_callback envOk "job-1" stAwait).1).1).jobs "job-1"
      = some { status := "failed", payment_status := some "completed",
               blockchain_identifier := "pay_001", input_data := [("text", "What is GDP?")],
               result := some "GDP grew 2 percent", error := some (keyErrMsg "job-1"),
               identifier_from_purchaser := "buyer_1" } := by
  constructor
  · rfl
  · rfl

/-- C1, amended: the callback does not check the active monitor set
before invoking the handler.  Even when the job's monitor entry is
already gone — the situation a duplicate signal produces — the callback
still invokes the handler, the Task Executor runs (once per signal), and
the run ends with the job marked failed. -/
theorem callback_invokes_handler_unconditionally (env : Env) (jid : String) (s : AppState)
    (r : JobRecord) (hj : s.jobs jid = some r) (hm : s.payment_instances jid = false) :
    (payment_callback env jid s).2 = 1 ∧
    ∃ r2, ((payment_callback env jid s).1).jobs jid = some r2 ∧
      r2.status = "failed" ∧ r2.error.isSome = true := by
  have hs1 : (updateJob s jid fun r => { r with status := "running" }).jobs jid
      = some { r with status := "running" } := updateJob_jobs_self _ _ _ _ hj
  unfold payment_callback handle_payment_status
  rw [hj]
  rcases env with ⟨ex, cp⟩
  rcases ex with msg | res
  · exact ⟨rfl, ⟨_, failCleanup_jobs_self _ _ _ _ hs1, rfl, rfl⟩⟩
  · dsimp only
    rw [updateJob_monitors, hm]
    exact ⟨rfl, ⟨_, failCleanup_jobs_self _ _ _ _ hs1, rfl, rfl⟩⟩

/-- Witness for the amended C1: job `"job-1"` is completed with no
active monitor, yet a (duplicate) signal still runs the handler once and
marks the job failed. -/
theorem callback_invokes_handler_unconditionally_witness :
    (payment_callback envOk "job-1" stDone).2 = 1 ∧
    ∃ r2, ((payment_callback envOk "job-1" stDone).1).jobs "job-1" = some r2 ∧
      r2.status = "failed" ∧ r2.error.isSome = true :=
  callback_invokes_handler_unconditionally envOk "job-1" stDone jrecDone rfl rfl

theorem failCleanup_jobs_other (s : AppState) (jid k : String) (msg : String) (h : k ≠ jid) :
    (failCleanup s jid msg).jobs k = s.jobs k := by
  unfold failCleanup
  rw [setMonitor_jobs]
  exact updateJob_jobs_other _ _ _ _ h

/-- The spec's record invariant (§3): `result` present iff completed,
`error` present iff failed. -/
def jobInv (r : JobRecord) : Prop :=
  ((r.status = "completed") ↔ r.result.isSome = true) ∧
  ((r.status = "failed") ↔ r.error.isSome = true)

/-- The record invariant, over every job in the store. -/
def stateInv (s : AppState) : Prop :=
  ∀ jid r, s.jobs jid = some r → jobInv r

/-- The record left behind when a duplicate confirmation signal hits the
already-completed `jrecDone`. -/
def jrecClobbered : JobRecord :=
  { jrecDone with status := "failed", error := some (keyErrMsg "job-1") }

/-- C3, counterexample: job `"job-1"` completed normally (`stDone`,
`result` present).  A duplicate confirmation signal invokes the
confirmation handler again; its failure branch records an `error`
without clearing `result`, so the resulting record has `result` and
`error` both present — the claimed invariant is violated after a status
transition performed by the confirmation handler. -/
theorem result_and_error_both_present_after_duplicate :
    ((handle_payment_status envOk "job-1" stDone).1).jobs "job-1" = some jrecClobbered ∧
    jrecClobbered.result.isSome = true ∧ jrecClobbered.error.isSome = true ∧
    ¬ jobInv jrecClobbered := by
  refine ⟨rfl, rfl, rfl, ?_⟩
  intro h
  exact absurd (h.1.mpr rfl) (by decide)

/-- C3, amended: the `result`/`error` invariant holds after job creation
and after any confirmation-handler invocation on a job that is not
already terminal (the regime §4.2's at-most-once contract guarantees). -/
theorem record_invariant_preserved :
    (∀ env req jid s, stateInv s → stateInv (start_job env req jid s).1) ∧
    (∀ env jid s r, stateInv s → s.jobs jid = some r →
      r.status ≠ "completed" → r.status ≠ "failed" →
      stateInv (handle_payment_status env jid s).1) := by
  constructor
  · intro env req jid s hs
    unfold start_job
    cases hv : validate_request req with
    | error e => exact hs
    | ok u =>
      cases hc : env.create_payment_request with
      | error e => exact hs
      | ok pr =>
        have hins : ∀ mon, stateInv (setMonitor (setJob s jid
            { status := "awaiting_payment", payment_status := some "pending",
              blockchain_identifier := pr.blockchainIdentifier, input_data := req.input_data,
              result := none, error := none,
              identifier_from_purchaser := req.identifier_from_purchaser }) jid mon) := by
          intro mon k rk hk
          rw [setMonitor_jobs] at hk
          by_cases hkj : k = jid
          · subst hkj
            rw [setJob_jobs_self] at hk
            injection hk with hk2
            subst hk2
            exact ⟨by simp, by simp⟩
          · rw [setJob_jobs_other _ _ _ _ hkj] at hk
            exact hs k rk hk
        cases hm : env.start_status_monitoring with
        | error e => exact hins true
        | ok u2 => exact hins true
  · intro env jid s r hs hj hnc hnf
    have hinv := hs jid r hj
    have hres : r.result = none := by
      cases hrr : r.result with
      | none => rfl
      | some v => exact absurd (hinv.1.mpr (by simp [hrr])) hnc
    have herr : r.error = none := by
      cases hre : r.error with
      | none => rfl
      | some v => exact absurd (hinv.2.mpr (by simp [hre])) hnf
    have hs1 : (updateJob s jid fun r => { r with status := "running" }).jobs jid
        = some { r with status := "running" } := updateJob_jobs_self _ _ _ _ hj
    have hfail : ∀ msg, stateInv (failCleanup
        (updateJob s jid fun r => { r with status := "running" }) jid msg) := by
      intro msg k rk hk
      by_cases hkj : k = jid
      · subst hkj
        rw [failCleanup_jobs_self _ _ _ _ hs1] at hk
        injection hk with hk2
        subst hk2
        refine ⟨?_, by simp⟩
        simp [hres]
      · rw [failCleanup_jobs_other _ _ _ _ hkj,
            updateJob_jobs_other _ _ _ _ hkj] at hk
        exact hs k rk hk
    unfold handle_payment_status
    rw [hj]
    rcases env with ⟨ex, cp⟩
    rcases ex with msg | res
    · exact hfail msg
    · dsimp only
      rw [updateJob_monitors]
      cases hmon : s.payment_instances jid
      · exact hfail (keyErrMsg jid)
      · rw [if_pos rfl]
        rcases cp with m | u
        · exact hfail m
        · intro k rk hk
          dsimp only at hk
          rw [setMonitor_jobs] at hk
          by_cases hkj : k = jid
          · subst hkj
            rw [updateJob_jobs_self _ _ _ _ hs1] at hk
            injection hk with hk2
            subst hk2
            refine ⟨by simp, ?_⟩
            simp [herr]
          · rw [updateJob_jobs_other _ _ _ _ hkj,
                updateJob_jobs_other _ _ _ _ hkj] at hk
            exact hs k rk hk

/-- Provider data returned by a successful `create_payment_request`. -/
def prOk : PaymentReqData :=
  { blockchainIdentifier := "pay_001", payByTime := "t1", submitResultTime := "t2",
    unlockTime := "t3", externalDisputeUnlockTime := "t4" }

/-- Environment where both external calls of `start_job` succeed. -/
def senvOk : StartEnv :=
  { create_payment_request := .ok prOk, start_status_monitoring := .ok () }

/-- A well-formed `/start_job` request. -/
def reqOk : StartJobRequest :=
  { identifier_from_purchaser := "buyer_1", input_data := [("text", "What is GDP?")] }

/-- The empty job store. -/
def stEmpty : AppState :=
  { jobs := fun _ => none, payment_instances := fun _ => false }

/-- Witness for the amended C3: the empty store satisfies the invariant,
and it still holds after creating a job and after the handler confirms
it. -/
theorem record_invariant_preserved_witness :
    stateInv (start_job senvOk reqOk "job-1" stEmpty).1 ∧
    stateInv (handle_payment_status envOk "job-1" stAwait).1 := by
  constructor
  · exact record_invariant_preserved.1 _ _ "job-1" _ (by intro k rk hk; cases hk)
  · exact record_invariant_preserved.2 envOk "job-1" stAwait jrecAwait
      (by intro k rk hk
          by_cases hkj : k = "job-1"
          · subst hkj
            rw [show stAwait.jobs "job-1" = some jrecAwait from rfl] at hk
            injection hk with hk2
            subst hk2
            exact ⟨by simp [jrecAwait], by simp [jrecAwait]⟩
          · simp [stAwait, hkj] at hk)
      rfl (by decide) (by decide)

/-- The spec's state machine (§4.3): a status may stay put or move
forward along `awaiting_payment → running → {completed | failed}`;
terminal states have no outgoing transition. -/
def statusForward (a b : String) : Prop :=
  a = b ∨ (a = "awaiting_payment" ∧ (b = "running" ∨ b = "completed" ∨ b = "failed"))
    ∨ (a = "running" ∧ (b = "completed" ∨ b = "failed"))

/-- C4, counterexample: job `"job-1"` sits in the terminal state
`completed` (`stDone`).  A duplicate provider signal invokes the
confirmation handler, whose first action resets `status` to `running`
and whose failure branch then lands on `failed`: the job's status leaves
a terminal state, which the forward-only state machine forbids. -/
theorem terminal_status_overwritten :
    (stDone.jobs "job-1").map JobRecord.status = some "completed" ∧
    (((handle_payment_status envOk "job-1" stDone).1).jobs "job-1").map JobRecord.status
      = some "failed" ∧
    ¬ statusForward "completed" "failed" := by
  refine ⟨rfl, rfl, ?_⟩
  intro h
  rcases h with h | ⟨h, _⟩ | ⟨h, _⟩ <;> exact absurd h (by decide)

/-- C4, amended: every operation only moves job statuses forward along
the state machine, provided the confirmation handler is invoked only on
a job that is not already terminal (the regime guaranteed by §4.2's
at-most-once contract): `start_job` with a fresh id never changes an
existing job's status, the handler moves the target job forward and
leaves the others, and `get_status` never changes any status. -/
theorem status_transitions_monotonic :
    (∀ env req jid s, s.jobs jid = none → ∀ k r r2,
      s.jobs k = some r → ((start_job env req jid s).1).jobs k = some r2 →
      statusForward r.status r2.status) ∧
    (∀ env jid s r0, s.jobs jid = some r0 →
      (r0.status = "awaiting_payment" ∨ r0.status = "running") → ∀ k r r2,
      s.jobs k = some r → ((handle_payment_status env jid s).1).jobs k = some r2 →
      statusForward r.status r2.status) ∧
    (∀ env jid s k r r2,
      s.jobs k = some r → ((get_status env jid s).1).jobs k = some r2 →
      r2.status = r.status) := by
  refine ⟨?_, ?_, ?_⟩
  · intro env req jid s hfresh k r r2 hk hk2
    unfold start_job at hk2
    cases hv : validate_request req with
    | error e =>
      rw [hv] at hk2
      dsimp only at hk2
      rw [hk] at hk2
      injection hk2 with h
      subst h
      exact Or.inl rfl
    | ok u =>
      rw [hv] at hk2
      cases hc : env.create_payment_request with
      | error e =>
        rw [hc] at hk2
        dsimp only at hk2
        rw [hk] at hk2
        injection hk2 with h
        subst h
        exact Or.inl rfl
      | ok pr =>
        rw [hc] at hk2
        have hkj : k ≠ jid := by
          intro h
          rw [h, hfresh] at hk
          cases hk
        cases hm : env.start_status_monitoring with
        | error e =>
          rw [hm] at hk2
          dsimp only at hk2
          rw [setMonitor_jobs, setJob_jobs_other _ _ _ _ hkj, hk] at hk2
          injection hk2 with h
          subst h
          exact Or.inl rfl
        | ok u2 =>
          rw [hm] at hk2
          dsimp only at hk2
          rw [setMonitor_jobs, setJob_jobs_other _ _ _ _ hkj, hk] at hk2
          injection hk2 with h
          subst h
          exact Or.inl rfl
  · intro env jid s r0 hj hnt k r r2 hk hk2
    have hs1 : (updateJob s jid fun r => { r with status := "running" }).jobs jid
        = some { r0 with status := "running" } := updateJob_jobs_self _ _ _ _ hj
    unfold handle_payment_status at hk2
    rw [hj] at hk2
    have hother : ∀ hkj : k ≠ jid, ∀ msg,
        (failCleanup (updateJob s jid fun r => { r with status := "running" }) jid msg).jobs k
          = s.jobs k := by
      intro hkj msg
      rw [failCleanup_jobs_other _ _ _ _ hkj, updateJob_jobs_other _ _ _ _ hkj]
    have hfailfwd : ∀ msg, (failCleanup
          (updateJob s jid fun r => { r with status := "running" }) jid msg).jobs k = some r2 →
        statusForward r.status r2.status := by
      intro msg hk3
      by_cases hkj : k = jid
      · subst hkj
        rw [failCleanup_jobs_self _ _ _ _ hs1] at hk3
        injection hk3 with h
        subst h
        have : r = r0 := by
          rw [hk] at hj
          injection hj
        subst this
        rcases hnt with h0 | h0 <;> rw [h0] <;> simp [statusForward]
      · rw [hother hkj msg, hk] at hk3
        injection hk3 with h
        subst h
        exact Or.inl rfl
    rcases env with ⟨ex, cp⟩
    rcases ex with msg | res
    · exact hfailfwd msg hk2
    · dsimp only at hk2
      rw [updateJob_monitors] at hk2
      cases hmon : s.payment_instances jid
      · rw [hmon] at hk2
        rw [if_neg (by simp)] at hk2
        exact hfailfwd (keyErrMsg jid) hk2
      · rw [hmon, if_pos rfl] at hk2
        rcases cp with m | u
        · exact hfailfwd m hk2
        · dsimp only at hk2
          rw [setMonitor_jobs] at hk2
          by_cases hkj : k = jid
          · subst hkj
            rw [updateJob_jobs_self _ _ _ _ hs1] at hk2
            injection hk2 with h
            subst h
            have : r = r0 := by
              rw [hk] at hj
              injection hj
            subst this
            rcases hnt with h0 | h0 <;> rw [h0] <;> simp [statusForward]
          · rw [updateJob_jobs_other _ _ _ _ hkj, updateJob_jobs_other _ _ _ _ hkj, hk] at hk2
            injection hk2 with h
            subst h
            exact Or.inl rfl
  · intro env jid s k r r2 hk hk2
    unfold get_status at hk2
    cases hj : s.jobs jid with
    | none =>
      rw [hj] at hk2
      dsimp only at hk2
      rw [hk] at hk2
      injection hk2 with h
      subst h
      rfl
    | some job =>
      rw [hj] at hk2
      dsimp only at hk2
      cases hmon : s.payment_instances jid
      · rw [hmon] at hk2
        rw [if_neg (by simp)] at hk2
        dsimp only at hk2
        rw [hk] at hk2
        injection hk2 with h
        subst h
        rfl
      · rw [hmon, if_pos rfl] at hk2
        dsimp only at hk2
        by_cases hkj : k = jid
        · subst hkj
          rw [setJob_jobs_self] at hk2
          injection hk2 with h
          subst h
          have : r = job := by
            rw [hk] at hj
            injection hj
          subst this
          rfl
        · rw [setJob_jobs_other _ _ _ _ hkj, hk] at hk2
          injection hk2 with h
          subst h
          rfl

/-- The record of `"job-1"` after a status inquiry refreshed its
payment status to `"confirmed"`. -/
def jrecConfirmed : JobRecord :=
  { jrecAwait with payment_status := some "confirmed" }

/-- Witness for the amended C4: on concrete states, `start_job` with a
fresh id leaves the existing job's status in place, the handler moves
`"job-1"` forward from `awaiting_payment` to `completed`, and a status
inquiry leaves the status untouched. -/
theorem status_transitions_monotonic_witness :
    statusForward jrecAwait.status jrecAwait.status ∧
    statusForward jrecAwait.status jrecDone.status ∧
    jrecConfirmed.status = jrecAwait.status := by
  refine ⟨?_, ?_, ?_⟩
  · exact status_transitions_monotonic.1 senvOk reqOk "job-2" stAwait rfl
      "job-1" jrecAwait jrecAwait rfl rfl
  · exact status_transitions_monotonic.2.1 envOk "job-1" stAwait jrecAwait rfl
      (Or.inl rfl) "job-1" jrecAwait jrecDone rfl rfl
  · exact status_transitions_monotonic.2.2 (ProviderCheck.ok (some "confirmed"))
      "job-1" stAwait "job-1" jrecAwait jrecConfirmed rfl rfl

/-- A job whose execution failed with `"timeout"`, as left by the
failure branch of the confirmation handler. -/
def jrecFailed : JobRecord :=
  { jrecAwait with status := "failed", error := some "timeout" }

/-- Store holding only the failed job `"job-5"`, its monitor already
removed. -/
def stFailed : AppState :=
  { jobs := fun k => if k = "job-5" then some jrecFailed else none,
    payment_instances := fun _ => false }

/-- The response `get_status` produces for `stFailed`. -/
def respFailed : List (String × JVal) :=
  [("job_id", .s "job-5"), ("status", .s "failed"),
   ("payment_status", .s "pending"), ("result", .null)]

/-- C5, counterexample: job `"job-5"` failed with recorded error
`"timeout"`, yet the `/status` response contains only `job_id`,
`status`, `payment_status` and `result` — there is no `error` field at
all, so the inquiry does not return `{status: failed, error: "timeout"}`
as claimed. -/
theorem failed_job_error_missing_from_response :
    (get_status (ProviderCheck.ok none) "job-5" stFailed).2.1 = .ok respFailed ∧
    respFailed.lookup "status" = some (JVal.s "failed") ∧
    respFailed.lookup "error" = none := ⟨rfl, rfl, rfl⟩

/-- C5, amended: a `GetStatus` inquiry on a failed job succeeds and
reports `status = failed` with `result` null, but the recorded error
string stays on the job record only — the response dict has no `error`
key, so the error text is not observable through `GetStatus`. -/
theorem failed_job_status_without_error_field (env : ProviderCheck) (jid : String)
    (s : AppState) (job : JobRecord) (hj : s.jobs jid = some job)
    (hst : job.status = "failed") (hm : s.payment_instances jid = false)
    (hr : job.result = none) :
    (get_status env jid s).1 = s ∧
    (get_status env jid s).2.1 = .ok (statusResponse jid job) ∧
    (statusResponse jid job).lookup "status" = some (JVal.s "failed") ∧
    (statusResponse jid job).lookup "error" = none ∧
    (statusResponse jid job).lookup "result" = some JVal.null := by
  have hred : get_status env jid s = (s, .ok (statusResponse jid job), false) := by
    unfold get_status
    rw [hj]
    dsimp only
    rw [hm, if_neg (by simp)]
  refine ⟨by rw [hred], by rw [hred], ?_, ?_, ?_⟩
  · show List.lookup "status" (statusResponse jid job) = some (JVal.s "failed")
    simp [statusResponse, List.lookup, hst]
  · show List.lookup "error" (statusResponse jid job) = none
    simp [statusResponse, List.lookup]
  · show List.lookup "result" (statusResponse jid job) = some JVal.null
    simp [statusResponse, List.lookup, hr, optJV]

/-- Witness for the amended C5 at the concrete failed job `"job-5"`. -/
theorem failed_job_status_without_error_field_witness :
    (get_status (ProviderCheck.ok none) "job-5" stFailed).1 = stFailed ∧
    (get_status (ProviderCheck.ok none) "job-5" stFailed).2.1
      = .ok (statusResponse "job-5" jrecFailed) ∧
    (statusResponse "job-5" jrecFailed).lookup "status" = some (JVal.s "failed") ∧
    (statusResponse "job-5" jrecFailed).lookup "error" = none ∧
    (statusResponse "job-5" jrecFailed).lookup "result" = some JVal.null :=
  failed_job_status_without_error_field (ProviderCheck.ok none) "job-5" stFailed
    jrecFailed rfl rfl rfl rfl

theorem pyStrip_length_le (s : String) : (pyStrip s).length ≤ s.length := by
  have h1 : ∀ (l : List Char) (p : Char → Bool), (l.dropWhile p).length ≤ l.length := by
    intro l p
    exact (List.IsSuffix.sublist (List.dropWhile_suffix p)).length_le
  calc (pyStrip s).length
      = ((s.data.dropWhile Char.isWhitespace).reverse.dropWhile Char.isWhitespace).reverse.length
        := rfl
    _ = ((s.data.dropWhile Char.isWhitespace).reverse.dropWhile Char.isWhitespace).length :=
        List.length_reverse _
    _ ≤ (s.data.dropWhile Char.isWhitespace).reverse.length := h1 _ _
    _ = (s.data.dropWhile Char.isWhitespace).length := List.length_reverse _
    _ ≤ s.data.length := h1 _ _
    _ = s.length := rfl

theorem validate_input_data_short (v : List (String × String)) (t : String)
    (ht : v.lookup "text" = some t) (hshort : t = "" ∨ t.length < 5) :
    ∃ m, validate_input_data v = .error m := by
  have hv : ¬ v = [] := by
    intro h
    subst h
    simp [List.lookup] at ht
  unfold validate_input_data
  rw [if_neg hv, ht]
  dsimp only
  by_cases ht0 : t = ""
  · rw [if_pos ht0]
    exact ⟨_, rfl⟩
  · rw [if_neg ht0]
    rcases hshort with h | h
    · exact absurd h ht0
    · rw [if_pos (lt_of_le_of_lt (pyStrip_length_le t) h)]
      exact ⟨_, rfl⟩

/-- C6: a `/start_job` request whose `text` field is empty or shorter
than 5 characters is rejected with a validation error before anything
happens: the provider is not contacted (flag `false`) and the job table
is returned unchanged. -/
theorem short_input_rejected_before_any_call (env : StartEnv) (req : StartJobRequest)
    (jid : String) (s : AppState) (t : String)
    (ht : req.input_data.lookup "text" = some t)
    (hshort : t = "" ∨ t.length < 5) :
    start_job env req jid s = (s, .error .validationError, false) := by
  obtain ⟨m, hm⟩ : ∃ m, validate_request req = .error m := by
    unfold validate_request
    by_cases hi : req.identifier_from_purchaser = ""
    · rw [if_pos hi]
      exact ⟨_, rfl⟩
    · rw [if_neg hi]
      exact validate_input_data_short _ _ ht hshort
  unfold start_job
  rw [hm]

/-- A request whose query text has fewer than 5 characters. -/
def reqShort : StartJobRequest :=
  { identifier_from_purchaser := "buyer_1", input_data := [("text", "GDP")] }

/-- Witness for C6: the request with text `"GDP"` is rejected and the
empty store is untouched. -/
theorem short_input_rejected_before_any_call_witness :
    start_job senvOk reqShort "job-9" stEmpty = (stEmpty, .error .validationError, false) :=
  short_input_rejected_before_any_call senvOk reqShort "job-9" stEmpty "GDP" rfl
    (Or.inr (by decide))

/-- C7: once validation passed, a provider failure at
`create_payment_request` surfaces an error with the state unchanged (no
partial job record), and on provider success the stored record carries
the provider's `blockchainIdentifier` from the moment it is stored,
with status `awaiting_payment`. -/
theorem provider_failure_no_partial_state (env : StartEnv) (req : StartJobRequest)
    (jid : String) (s : AppState) (hv : validate_request req = .ok ()) :
    (∀ e, env.create_payment_request = .error e →
      start_job env req jid s = (s, .error .internalError, true)) ∧
    (∀ pr, env.create_payment_request = .ok pr →
      ∃ r, ((start_job env req jid s).1).jobs jid = some r ∧
        r.blockchain_identifier = pr.blockchainIdentifier ∧
        r.status = "awaiting_payment") := by
  constructor
  · intro e he
    unfold start_job
    rw [hv, he]
  · intro pr hpr
    unfold start_job
    rw [hv, hpr]
    cases hm : env.start_status_monitoring with
    | error e =>
      dsimp only
      rw [setMonitor_jobs, setJob_jobs_self]
      exact ⟨_, rfl, rfl, rfl⟩
    | ok u =>
      dsimp only
      rw [setMonitor_jobs, setJob_jobs_self]
      exact ⟨_, rfl, rfl, rfl⟩

/-- Environment where the provider rejects the payment demand. -/
def senvFail : StartEnv :=
  { create_payment_request := .error "provider down", start_status_monitoring := .ok () }

/-- Witness for C7: with a valid request, the failing provider leaves
the empty store empty and surfaces an error, while the succeeding
provider stores a record carrying `pay_001`. -/
theorem provider_failure_no_partial_state_witness :
    start_job senvFail reqOk "job-1" stEmpty = (stEmpty, .error .internalError, true) ∧
    ∃ r, ((start_job senvOk reqOk "job-1" stEmpty).1).jobs "job-1" = some r ∧
      r.blockchain_identifier = prOk.blockchainIdentifier ∧
      r.status = "awaiting_payment" := by
  constructor
  · exact (provider_failure_no_partial_state senvFail reqOk "job-1" stEmpty rfl).1
      "provider down" rfl
  · exact (provider_failure_no_partial_state senvOk reqOk "job-1" stEmpty rfl).2 prOk rfl

/-- C8: a status inquiry for an id absent from the job store fails with
`NotFoundError` — never any other error kind, whatever the provider
environment — without contacting the provider and with the store
unchanged. -/
theorem unknown_job_always_not_found (env : ProviderCheck) (jid : String) (s : AppState)
    (h : s.jobs jid = none) :
    get_status env jid s = (s, .error .notFound, false) := by
  unfold get_status
  rw [h]

/-- Witness for C8: inquiring about `"missing"` in the store that only
holds `"job-1"`. -/
theorem unknown_job_always_not_found_witness :
    get_status (ProviderCheck.otherError "outage") "missing" stAwait
      = (stAwait, .error .notFound, false) :=
  unknown_job_always_not_found (ProviderCheck.otherError "outage") "missing" stAwait rfl

/-- `job["payment_status"] = status` — the record after the reconciler
writes a freshly observed payment status. -/
def refreshJob (job : JobRecord) (pst : Option String) : JobRecord :=
  { job with payment_status := pst }

/-- C9: on a known job with an active monitor entry the reconciler
queries the provider and writes the live status into `payment_status`
(a `ValueError` degrades it to `"unknown"`, any other exception to
`"error"`) and the inquiry still succeeds; without an active monitor the
stored status is returned as-is and the provider is never contacted. -/
theorem status_inquiry_best_effort_refresh (jid : String) (s : AppState) (job : JobRecord)
    (hj : s.jobs jid = some job) :
    (s.payment_instances jid = true →
      (∀ pst, get_status (ProviderCheck.ok pst) jid s
        = (setJob s jid (refreshJob job pst),
           .ok (statusResponse jid (refreshJob job pst)), true)) ∧
      (∀ m, get_status (ProviderCheck.valueError m) jid s
        = (setJob s jid (refreshJob job (some "unknown")),
           .ok (statusResponse jid (refreshJob job (some "unknown"))), true)) ∧
      (∀ m, get_status (ProviderCheck.otherError m) jid s
        = (setJob s jid (refreshJob job (some "error")),
           .ok (statusResponse jid (refreshJob job (some "error"))), true))) ∧
    (s.payment_instances jid = false →
      ∀ env, get_status env jid s = (s, .ok (statusResponse jid job), false)) := by
  constructor
  · intro hmon
    refine ⟨?_, ?_, ?_⟩ <;>
      · intro x
        unfold get_status refreshJob
        rw [hj]
        dsimp only
        rw [hmon, if_pos rfl]
  · intro hmon env
    unfold get_status
    rw [hj]
    dsimp only
    rw [hmon, if_neg (by simp)]

/-- Witness for C9: the three refresh outcomes on the monitored job
`"job-1"` and the provider-free answer on the unmonitored job
`"job-5"`. -/
theorem status_inquiry_best_effort_refresh_witness :
    get_status (ProviderCheck.ok (some "confirmed")) "job-1" stAwait
      = (setJob stAwait "job-1" (refreshJob jrecAwait (some "confirmed")),
         .ok (statusResponse "job-1" (refreshJob jrecAwait (some "confirmed"))), true) ∧
    get_status (ProviderCheck.valueError "bad response") "job-1" stAwait
      = (setJob stAwait "job-1" (refreshJob jrecAwait (some "unknown")),
         .ok (statusResponse "job-1" (refreshJob jrecAwait (some "unknown"))), true) ∧
    get_status (ProviderCheck.otherError "outage") "job-1" stAwait
      = (setJob stAwait "job-1" (refreshJob jrecAwait (some "error")),
         .ok (statusResponse "job-1" (refreshJob jrecAwait (some "error"))), true) ∧
    get_status (ProviderCheck.ok (some "ignored")) "job-5" stFailed
      = (stFailed, .ok (statusResponse "job-5" jrecFailed), false) := by
  refine ⟨?_, ?_, ?_, ?_⟩
  · exact ((status_inquiry_best_effort_refresh "job-1" stAwait jrecAwait rfl).1 rfl).1
      (some "confirmed")
  · exact ((status_inquiry_best_effort_refresh "job-1" stAwait jrecAwait rfl).1 rfl).2.1
      "bad response"
  · exact ((status_inquiry_best_effort_refresh "job-1" stAwait jrecAwait rfl).1 rfl).2.2
      "outage"
  · exact (status_inquiry_best_effort_refresh "job-5" stFailed jrecFailed rfl).2 rfl
      (ProviderCheck.ok (some "ignored"))

/-- The record stored by `start_job` right after the payment request
succeeded (`src/main.py` lines 130-137). -/
def createdJob (req : StartJobRequest) (pr : PaymentReqData) : JobRecord :=
  { status := "awaiting_payment", payment_status := some "pending",
    blockchain_identifier := pr.blockchainIdentifier, input_data := req.input_data,
    result := none, error := none,
    identifier_from_purchaser := req.identifier_from_purchaser }

/-- C10: when the payment request succeeds but
`start_status_monitoring` raises, the caller receives an error (HTTP
500), yet the job record — status `awaiting_payment` — and the payment
instance are already stored, and the job answers `GetStatus`
successfully. -/
theorem monitoring_failure_leaves_job_visible (env : StartEnv) (req : StartJobRequest)
    (jid : String) (s : AppState) (pr : PaymentReqData) (m : String)
    (hv : validate_request req = .ok ()) (hc : env.create_payment_request = .ok pr)
    (hmn : env.start_status_monitoring = .error m) :
    (start_job env req jid s).2.1 = .error .internalError ∧
    ((start_job env req jid s).1).jobs jid = some (createdJob req pr) ∧
    ((start_job env req jid s).1).payment_instances jid = true ∧
    (∀ penv, (get_status penv jid (start_job env req jid s).1).2.1
      = .ok (statusResponse jid (refreshJob (createdJob req pr)
          (match penv with
           | .ok p => p
           | .valueError _ => some "unknown"
           | .otherError _ => some "error")))) := by
  have hS : start_job env req jid s
      = (setMonitor (setJob s jid (createdJob req pr)) jid true, .error .internalError, true) := by
    unfold start_job createdJob
    rw [hv, hc, hmn]
  have hjobs : ((start_job env req jid s).1).jobs jid = some (createdJob req pr) := by
    rw [hS]
    dsimp only
    rw [setMonitor_jobs, setJob_jobs_self]
  have hmon2 : ((start_job env req jid s).1).payment_instances jid = true := by
    rw [hS]
    exact setMonitor_self _ _ _
  refine ⟨by rw [hS], hjobs, hmon2, ?_⟩
  intro penv
  unfold get_status
  rw [hjobs]
  dsimp only
  rw [hmon2, if_pos rfl]
  cases penv <;> rfl

/-- Environment where payment creation succeeds but starting the status
monitor raises. -/
def senvMonFail : StartEnv :=
  { create_payment_request := .ok prOk, start_status_monitoring := .error "loop spawn failed" }

/-- Witness for C10 on the empty store with the valid request `reqOk`. -/
theorem monitoring_failure_leaves_job_visible_witness :
    (start_job senvMonFail reqOk "job-1" stEmpty).2.1 = .error .internalError ∧
    ((start_job senvMonFail reqOk "job-1" stEmpty).1).jobs "job-1"
      = some (createdJob reqOk prOk) ∧
    ((start_job senvMonFail reqOk "job-1" stEmpty).1).payment_instances "job-1" = true ∧
    (∀ penv, (get_status penv "job-1" (start_job senvMonFail reqOk "job-1" stEmpty).1).2.1
      = .ok (statusResponse "job-1" (refreshJob (createdJob reqOk prOk)
          (match penv with
           | .ok p => p
           | .valueError _ => some "unknown"
           | .otherError _ => some "error")))) :=
  monitoring_failure_leaves_job_visible senvMonFail reqOk "job-1" stEmpty prOk
    "loop spawn failed" rfl rfl rfl
